import Mathlib

/-!
Verification development for the h3-hota-ai-assistant repository.

The repository watches a directory for Heroes III save files, parses them
into snapshot dictionaries, caches the latest snapshot in a thread-safe
single-slot cache with optional JSON persistence, and serves it over a
small HTTP API.  This file gives a shallow embedding of the Python code
in `src/mcp_server/cache.py`, `src/mcp_server/handlers.py`,
`src/mcp_server/server.py`, `src/save_watcher/watcher.py` and
`src/save_watcher/models.py`, together with theorems about the embedded
definitions.

Python values flowing through the system are JSON-like dictionaries; we
model them with the inductive type `JVal` below.  Mutable state (the
cache object, the debounce map, the on-disk cache file) is threaded
explicitly.  Wall-clock timestamps are opaque; they are modelled by
natural numbers, and the ISO-8601 rendering used by the cache file is
modelled by an injective encoding with a decoder.
-/

/-- JSON-like Python value: None, bool, int, str, list, dict.
Floats never occur in the data produced by this repository, so they are
not modelled. -/
inductive JVal where
  | null : JVal
  | bool : Bool → JVal
  | int : Int → JVal
  | str : String → JVal
  | arr : List JVal → JVal
  | obj : List (String × JVal) → JVal

/-- A Python dictionary with string keys, in insertion order. -/
abbrev Dict := List (String × JVal)

/-- First-match association lookup; models reading a key of a Python
dict built without duplicate keys. -/
def alookup {α : Type} (d : List (String × α)) (k : String) : Option α :=
  match d with
  | [] => none
  | kv :: rest => if kv.1 = k then some kv.2 else alookup rest k

/-- Association update; models Python `d[k] = v` (existing key keeps its
position, new key is appended, matching dict insertion order). -/
def aset {α : Type} (d : List (String × α)) (k : String) (v : α) : List (String × α) :=
  match d with
  | [] => [(k, v)]
  | kv :: rest => if kv.1 = k then (k, v) :: rest else kv :: aset rest k v

/-- Models Python `d.get(k)` at the object level: the raw stored value,
`none` when the key is absent. -/
def pyGetRaw (d : Dict) (k : String) : Option JVal :=
  alookup d k

/-- Models Python `d.get(k)` combined with the fact that a stored `None`
value and an absent key are the same Python object `None`: both collapse
to `none`. -/
def pyGet (d : Dict) (k : String) : Option JVal :=
  match alookup d k with
  | some JVal.null => none
  | v => v

/-- Python truthiness of a JSON-like value. -/
def pyTruthy : JVal → Bool
  | JVal.null => false
  | JVal.bool b => b
  | JVal.int n => decide (n ≠ 0)
  | JVal.str s => !s.isEmpty
  | JVal.arr xs => !xs.isEmpty
  | JVal.obj kvs => !kvs.isEmpty

/-- Numeric view used by Python `==`: `True`/`False` compare equal to
`1`/`0`. -/
def pyNum : JVal → Option Int
  | JVal.int n => some n
  | JVal.bool b => some (if b then 1 else 0)
  | _ => none

/-- Check that every key of `ys` also occurs in `xs`. -/
def keysSub (ys xs : List (String × JVal)) : Bool :=
  ys.all (fun kv => (alookup xs kv.1).isSome)

mutual
/-- Models Python `==` on JSON-like values: numeric bool/int coercion,
pointwise list comparison, order-insensitive dict comparison. -/
def pyEq : JVal → JVal → Bool
  | JVal.null, JVal.null => true
  | JVal.str s, JVal.str t => s == t
  | JVal.arr xs, JVal.arr ys => pyEqList xs ys
  | JVal.obj xs, JVal.obj ys => pyEqObjSub xs ys && keysSub ys xs
  | a, b =>
    match pyNum a, pyNum b with
    | some m, some n => m == n
    | _, _ => false
  termination_by a _ => sizeOf a

/-- Pointwise Python `==` on lists. -/
def pyEqList : List JVal → List JVal → Bool
  | [], [] => true
  | x :: xs, y :: ys => pyEq x y && pyEqList xs ys
  | _, _ => false
  termination_by xs _ => sizeOf xs

/-- Every entry of the first dict has a `==`-equal entry in the second. -/
def pyEqObjSub : List (String × JVal) → List (String × JVal) → Bool
  | [], _ => true
  | (k, v) :: rest, ys =>
    (match alookup ys k with
     | some w => pyEq v w
     | none => false) && pyEqObjSub rest ys
  termination_by xs _ => sizeOf xs
end

/-- A single-quote character, used by the Python `repr` rendering. -/
def sQuote : String := String.singleton (Char.ofNat 39)

mutual
/-- Models Python `repr` on JSON-like values (containers rendered with
Python list/dict punctuation, strings quoted). -/
def pyRepr : JVal → String
  | JVal.null => "None"
  | JVal.bool true => "True"
  | JVal.bool false => "False"
  | JVal.int n => toString n
  | JVal.str s => sQuote ++ s ++ sQuote
  | JVal.arr xs => "[" ++ pyReprList xs ++ "]"
  | JVal.obj kvs => "\x7b" ++ pyReprFields kvs ++ "\x7d"
  termination_by v => sizeOf v

/-- Comma-separated reprs of list elements. -/
def pyReprList : List JVal → String
  | [] => ""
  | [x] => pyRepr x
  | x :: xs => pyRepr x ++ ", " ++ pyReprList xs
  termination_by xs => sizeOf xs

/-- Comma-separated reprs of dict entries. -/
def pyReprFields : List (String × JVal) → String
  | [] => ""
  | [(k, v)] => sQuote ++ k ++ sQuote ++ ": " ++ pyRepr v
  | (k, v) :: kvs => sQuote ++ k ++ sQuote ++ ": " ++ pyRepr v ++ ", " ++ pyReprFields kvs
  termination_by kvs => sizeOf kvs
end

/-- Models Python `str()` as used in f-string interpolation. -/
def pyStr : JVal → String
  | JVal.null => "None"
  | JVal.bool true => "True"
  | JVal.bool false => "False"
  | JVal.int n => toString n
  | JVal.str s => s
  | v => pyRepr v

/-! Data model from `src/save_watcher/models.py`.  Dataclass fields keep
their Python names; `to_dict` mirrors each dataclass serializer. -/

/-- Renders a string-keyed int dict (hero location, army slots, primary
stats, resources) as a JSON object. -/
def jobjInt (d : List (String × Int)) : JVal :=
  JVal.obj (d.map (fun kv => (kv.1, JVal.int kv.2)))

/-- A visible map tile (`models.py`, class `Tile`). -/
structure Tile where
  x : Int
  y : Int
  obj : String
  owner : Option Int

/-- Serializer `Tile.to_dict`: `asdict(self)` keeps every field,
including `owner` when it is `None` (rendered as JSON null). -/
def Tile.to_dict (t : Tile) : Dict :=
  [("x", JVal.int t.x), ("y", JVal.int t.y), ("obj", JVal.str t.obj),
   ("owner", match t.owner with | some p => JVal.int p | none => JVal.null)]

/-- A hero on the map (`models.py`, class `Hero`). -/
structure Hero where
  name : String
  location : List (String × Int)
  army : List (List (String × Int))
  movement_left : Int
  primary_stats : List (String × Int)
  mana : Option Int
  experience : Option Int
  level : Option Int
  skills : Option (List Dict)
  spells : Option (List Int)
  artifacts : Option (List Int)

/-- The `asdict(self)` field list of a `Hero`, with optional fields as
`Option` (Python `None`). -/
def Hero.fieldPairs (h : Hero) : List (String × Option JVal) :=
  [("name", some (JVal.str h.name)),
   ("location", some (jobjInt h.location)),
   ("army", some (JVal.arr (h.army.map jobjInt))),
   ("movement_left", some (JVal.int h.movement_left)),
   ("primary_stats", some (jobjInt h.primary_stats)),
   ("mana", h.mana.map JVal.int),
   ("experience", h.experience.map JVal.int),
   ("level", h.level.map JVal.int),
   ("skills", h.skills.map (fun l => JVal.arr (l.map JVal.obj))),
   ("spells", h.spells.map (fun l => JVal.arr (l.map JVal.int))),
   ("artifacts", h.artifacts.map (fun l => JVal.arr (l.map JVal.int)))]

/-- Serializer `Hero.to_dict`: `asdict(self)` followed by the dict
comprehension dropping entries whose value `is None`. -/
def Hero.to_dict (h : Hero) : Dict :=
  h.fieldPairs.filterMap (fun kv => kv.2.map (fun v => (kv.1, v)))

/-- A town (`models.py`, class `Town`). -/
structure Town where
  name : String
  location : List (String × Int)
  owner : Int
  type : String
  buildings : List Int
  garrison : List (List (String × Int))
  available_creatures : Option (List (List (String × Int)))

/-- The `asdict(self)` field list of a `Town`. -/
def Town.fieldPairs (t : Town) : List (String × Option JVal) :=
  [("name", some (JVal.str t.name)),
   ("location", some (jobjInt t.location)),
   ("owner", some (JVal.int t.owner)),
   ("type", some (JVal.str t.type)),
   ("buildings", some (JVal.arr (t.buildings.map JVal.int))),
   ("garrison", some (JVal.arr (t.garrison.map jobjInt))),
   ("available_creatures", t.available_creatures.map (fun l => JVal.arr (l.map jobjInt)))]

/-- Serializer `Town.to_dict`: `asdict(self)` followed by dropping
entries whose value `is None`. -/
def Town.to_dict (t : Town) : Dict :=
  t.fieldPairs.filterMap (fun kv => kv.2.map (fun v => (kv.1, v)))

/-- Complete game state visible to the current player (`models.py`,
class `GameState`). -/
structure GameState where
  turn : Int
  current_player : Int
  visible_tiles : List Tile
  heroes : List Hero
  towns : List Town
  resources : Option (List (String × Int))

/-- Serializer `GameState.to_dict`: the five required keys are always
written; `resources` is appended only when `self.resources` is truthy
(so `None` and the empty dict are both omitted). -/
def GameState.to_dict (g : GameState) : Dict :=
  let base : Dict :=
    [("turn", JVal.int g.turn),
     ("currentPlayer", JVal.int g.current_player),
     ("visibleTiles", JVal.arr (g.visible_tiles.map (fun t => JVal.obj t.to_dict))),
     ("heroes", JVal.arr (g.heroes.map (fun h => JVal.obj h.to_dict))),
     ("towns", JVal.arr (g.towns.map (fun t => JVal.obj t.to_dict)))]
  match g.resources with
  | some r => if r.isEmpty then base else base ++ [("resources", jobjInt r)]
  | none => base

/-! Snapshot cache from `src/mcp_server/cache.py`, class
`GameStateCache`.  The cache object together with the content of its
optional on-disk mirror is threaded as an explicit record.  Timestamps
(`datetime.now()`) are opaque to the cache; they are modelled as natural
numbers passed in by the caller.  `datetime.isoformat` and
`datetime.fromisoformat` are external library functions; they are
modelled by an injective rendering with a matching decoder. -/

/-- Injective model of `datetime.isoformat` on opaque timestamps. -/
def isoformat (t : Nat) : String :=
  String.mk (List.replicate t (Char.ofNat 84))

/-- Decoder matching `isoformat`; models `datetime.fromisoformat` on
strings this program writes (malformed persisted files are modelled
separately by `FileContent.corrupt`). -/
def fromisoformat (s : String) : Option Nat :=
  some s.length

/-- Content of the persisted cache file path: absent, unreadable or
non-JSON (any way `open`/`json.load`/`fromisoformat` can raise), or a
parsed JSON document. -/
inductive FileContent where
  | corrupt : FileContent
  | json : JVal → FileContent

/-- The `GameStateCache` object plus the state of its persistence file.
`cacheFileConfigured` is whether a `cache_file` path was given; `file`
is the current content at that path (`none` meaning no file exists). -/
structure GameStateCache where
  cacheFileConfigured : Bool
  state : Option Dict
  last_update : Option Nat
  file : Option FileContent

/-- Method `_load_from_file`: reads the persisted JSON document.  The
whole body is wrapped in `try/except`, and the handler resets both
`_state` and `last_update` to `None`.  A `state` entry that is neither a
JSON object nor null cannot be produced by `_save_to_file` and would
make the Python cache raise later (no `.copy` attribute); it is mapped
to `None` here. -/
def GameStateCache.load_from_file (c : GameStateCache) : GameStateCache :=
  match c.file with
  | none => c
  | some FileContent.corrupt => { c with state := none, last_update := none }
  | some (FileContent.json v) =>
    match v with
    | JVal.obj fields =>
      let st : Option Dict :=
        match pyGet fields "state" with
        | some (JVal.obj d) => some d
        | _ => none
      (match pyGet fields "last_update" with
       | none => { c with state := st, last_update := none }
       | some lu =>
         if pyTruthy lu then
           match lu with
           | JVal.str s => { c with state := st, last_update := fromisoformat s }
           | _ => { c with state := none, last_update := none }
         else { c with state := st, last_update := none })
    | _ => { c with state := none, last_update := none }

/-- Constructor `GameStateCache.__init__`: starts empty and loads the
persisted file when a path is configured and the file exists. -/
def GameStateCache.init (configured : Bool) (disk : Option FileContent) : GameStateCache :=
  let base : GameStateCache := ⟨configured, none, none, disk⟩
  if configured && disk.isSome then base.load_from_file else base

/-- Method `_save_to_file` (called with the lock held): serializes
`{"state": ..., "last_update": ...}` to a temporary file and atomically
renames it over the target.  Any failure is caught and logged, leaving
the previous file content in place; `writeOk` selects which of the two
outcomes happens. -/
def GameStateCache.save_to_file (c : GameStateCache) (writeOk : Bool) : GameStateCache :=
  if writeOk then
    { c with file := some (FileContent.json (JVal.obj
        [("state", match c.state with | some d => JVal.obj d | none => JVal.null),
         ("last_update",
          match c.last_update with
          | some t => JVal.str (isoformat t)
          | none => JVal.null)])) }
  else c

/-- Method `update`: replaces the in-memory state with a copy of the
argument and stamps `last_update := datetime.now()` (passed as `now`),
then persists when a cache file is configured. -/
def GameStateCache.update (c : GameStateCache) (game_state : Dict) (now : Nat)
    (writeOk : Bool) : GameStateCache :=
  let c1 : GameStateCache := { c with state := some game_state, last_update := some now }
  if c.cacheFileConfigured then c1.save_to_file writeOk else c1

/-- Method `get_latest`: `self._state.copy() if self._state else None`.
Note the Python truthiness test: an empty dict state is reported as
`None`.  A `copy()` of a dict is equal to it, so the copy is the value
itself in this value-level model. -/
def GameStateCache.get_latest (c : GameStateCache) : Option Dict :=
  match c.state with
  | some d => if d.isEmpty then none else some d
  | none => none

/-- Method `clear`: drops the entry, the timestamp and the persisted
file. -/
def GameStateCache.clear (c : GameStateCache) : GameStateCache :=
  { c with state := none, last_update := none,
           file := if c.cacheFileConfigured then none else c.file }

/-! Query handling from `src/mcp_server/handlers.py`, class
`QueryHandler`, and the HTTP layer from `src/mcp_server/server.py`,
class `MCPRequestHandler`. -/

/-- Python comparison `requested_turn != game_state.get("turn")` with
the right-hand side possibly the object `None` (absent or null key):
any non-null value is `!=` to `None`. -/
def pyEqOpt (v : JVal) (o : Option JVal) : Bool :=
  match o with
  | some w => pyEq v w
  | none => false

/-- The f-string body of the turn-mismatch message. -/
def mismatchMsg (requested : JVal) (cachedTurn : Option JVal) : String :=
  "Requested turn " ++ pyStr requested ++ ", but only turn " ++
    (match cachedTurn with | some v => pyStr v | none => "None") ++ " is available"

/-- Method `QueryHandler.handle_query`: reads the latest snapshot from
the cache and answers the body of `POST /query/snapshot`. -/
def QueryHandler.handle_query (cache : GameStateCache) (request_data : Dict) : Dict :=
  match cache.get_latest with
  | none =>
    [("error", JVal.str "No game state available"),
     ("message", JVal.str "Waiting for Heroes III save file to be detected")]
  | some game_state =>
    let success : Dict :=
      [("success", JVal.bool true),
       ("data", JVal.obj game_state),
       ("metadata", JVal.obj
         [("cached_at",
           match cache.last_update with
           | some t => JVal.str (isoformat t)
           | none => JVal.null),
          ("version", JVal.str "1.0.0")])]
    match pyGet request_data "turn" with
    | some requested_turn =>
      if !pyEqOpt requested_turn (pyGet game_state "turn") then
        [("error", JVal.str "Turn not available"),
         ("message", JVal.str (mismatchMsg requested_turn (pyGet game_state "turn")))]
      else success
    | none => success

/-- An HTTP response from the query endpoint: either a 200 with a JSON
payload, or an HTTP error status from `send_error`. -/
inductive HttpResponse where
  | ok : Dict → HttpResponse
  | err : Nat → String → HttpResponse

/-- The parts of a `POST /query/snapshot` request the handler looks at:
the optional `Content-Length` header and the request stream. -/
structure HttpRequest where
  contentLength : Option Nat
  stream : String

/-- Method `MCPRequestHandler.handle_query`: reads
`int(self.headers.get('Content-Length', 0))` bytes of body, substitutes
the literal string `"\x7b\x7d"` when there is no body, parses it with
`json.loads` (passed in as `loads`, an external library function), and
answers 400 on a parse error or 200 with the `QueryHandler` payload. -/
def MCPRequestHandler.handle_query (loads : String → Option Dict)
    (cache : GameStateCache) (req : HttpRequest) : HttpResponse :=
  let content_length := req.contentLength.getD 0
  let body := if content_length > 0 then req.stream.take content_length else "\x7b\x7d"
  match loads body with
  | none => HttpResponse.err 400 "Invalid JSON"
  | some request_data => HttpResponse.ok (QueryHandler.handle_query cache request_data)

/-! Change watcher from `src/save_watcher/watcher.py`, classes
`SaveFileHandler` and `SaveWatcher`.  File-system paths are strings;
events carry the `src_path` and the `is_directory` flag of the watchdog
event.  `datetime.now()` at event-processing time is passed in as a
rational number of seconds so that sub-second debounce distances are
expressible.  The parse step (`SaveParser.parse_save_file`) is the
pluggable collaborator; it is passed in as a function returning
`Option GameState` (`none` models a parse failure). -/

/-- The final path component (the part after the last slash), as in
`pathlib.PurePath.name`. -/
def pathName (s : String) : String :=
  String.mk (s.data.foldl (fun acc c => if c = Char.ofNat 47 then [] else acc ++ [c]) [])

/-- The extension of the final component, as in
`pathlib.PurePath.suffix`: the part of the name from the last dot,
empty for names whose only dot is leading or trailing. -/
def pathSuffix (s : String) : String :=
  let cs := (pathName s).toList
  match cs.reverse.findIdx? (fun c => c = Char.ofNat 46) with
  | none => ""
  | some j =>
    let i := cs.length - 1 - j
    if 0 < i ∧ i < cs.length - 1 then String.mk (cs.drop i) else ""

/-- ASCII lowercasing, as in `str.lower` on extension strings. -/
def strLower (s : String) : String :=
  String.mk (s.data.map Char.toLower)

/-- Suffix test on strings, as in `str.endswith` / glob `*.<ext>`. -/
def strEndsWith (s suffixStr : String) : Bool :=
  s.data.drop (s.data.length - suffixStr.data.length) == suffixStr.data

/-- Prefix test on strings, as in glob `autosave_*`. -/
def strStartsWith (s prefixStr : String) : Bool :=
  s.data.take prefixStr.data.length == prefixStr.data

/-- Method `SaveFileHandler._is_save_file`: case-insensitive extension
membership in the fixed save-extension set. -/
def SaveFileHandler.is_save_file (path : String) : Bool :=
  [".gm1", ".gm2", ".gm3", ".gm4", ".gm5", ".gm6"].contains (strLower (pathSuffix path))

/-- A watchdog file-modification event. -/
structure FsEvent where
  src_path : String
  is_directory : Bool

/-- What one `on_modified` call does: the updated per-path debounce map,
whether the parser was invoked, the JSON document written to stdout, and
the snapshot handed to the callback. -/
structure ModResult where
  last_modified : List (String × ℚ)
  parserCalled : Bool
  stdoutDoc : Option Dict
  callbackArg : Option GameState

/-- Method `SaveFileHandler.on_modified`: reject directories and
non-save extensions, debounce per path against a 1.0 second window,
record the accepted timestamp, invoke the parser, and on success print
the snapshot JSON to stdout and hand the snapshot to the callback when
one is configured. -/
def SaveFileHandler.on_modified (parse : String → Option GameState)
    (callbackConfigured : Bool) (last_modified : List (String × ℚ))
    (event : FsEvent) (now : ℚ) : ModResult :=
  if event.is_directory then ⟨last_modified, false, none, none⟩
  else if !SaveFileHandler.is_save_file event.src_path then
    ⟨last_modified, false, none, none⟩
  else
    let debounced :=
      match alookup last_modified event.src_path with
      | some last_mod => decide (now - last_mod < 1)
      | none => false
    if debounced then ⟨last_modified, false, none, none⟩
    else
      let recorded := aset last_modified event.src_path now
      match parse event.src_path with
      | some game_state =>
        ⟨recorded, true, some game_state.to_dict,
         if callbackConfigured then some game_state else none⟩
      | none => ⟨recorded, true, none, none⟩

/-- A directory entry seen by `process_existing_saves`: its name and its
`stat().st_mtime`. -/
structure FileEntry where
  name : String
  mtime : Nat
deriving DecidableEq

/-- The three glob patterns of `process_existing_saves`, in order:
`*.gm1`, `*.GM1`, `autosave_*.gm1`.  A file matching several patterns is
listed once per pattern, as with repeated `glob` calls. -/
def globSaves (dir : List FileEntry) : List FileEntry :=
  dir.filter (fun f => strEndsWith f.name ".gm1") ++
  dir.filter (fun f => strEndsWith f.name ".GM1") ++
  dir.filter (fun f => strStartsWith f.name "autosave_" && strEndsWith f.name ".gm1")

/-- First entry with maximal `mtime`; equals element 0 of the list after
the stable descending sort on `st_mtime` that the method performs. -/
def pickLatest : FileEntry → List FileEntry → FileEntry
  | best, [] => best
  | best, f :: rest => pickLatest (if f.mtime > best.mtime then f else best) rest

/-- What one `process_existing_saves` call emits. -/
structure ScanResult where
  stdoutDoc : Option Dict
  callbackArg : Option GameState

/-- Method `SaveWatcher.process_existing_saves`: glob the directory for
the three save patterns, take the most recently modified match, parse
it, and on success print the snapshot JSON to stdout.  The method never
touches `self.handler.callback`; no callback is invoked regardless of
whether one is configured. -/
def SaveWatcher.process_existing_saves (dir : List FileEntry)
    (parse : String → Option GameState) : ScanResult :=
  match globSaves dir with
  | [] => ⟨none, none⟩
  | f :: rest =>
    let latest_save := pickLatest f rest
    match parse latest_save.name with
    | some game_state => ⟨some game_state.to_dict, none⟩
    | none => ⟨none, none⟩

/-- The sample snapshot built by `SaveParser._create_mock_game_state`
(`src/save_watcher/parser.py`), used as a concrete parse result. -/
def mockGameState : GameState :=
  { turn := 28
    current_player := 0
    visible_tiles :=
      [⟨34, 17, "GoldMine", none⟩, ⟨35, 17, "CrystalCavern", some 0⟩]
    heroes :=
      [{ name := "Ivor"
         location := [("x", 34), ("y", 17)]
         army := [[("creatureId", 17), ("count", 87)]]
         movement_left := 578
         primary_stats :=
           [("attack", 9), ("defense", 10), ("spellPower", 4), ("knowledge", 4)]
         mana := none, experience := none, level := none
         skills := none, spells := none, artifacts := none }]
    towns := []
    resources := none }

/-! Object-identity model for the defensive-copy contract of
`GameStateCache.get_latest`.  The value-level model above cannot talk
about aliasing, so here Python objects live in an explicit heap:
addresses map to nodes, a dict node holds addresses of its values, and
`dict.copy()` allocates a new top-level node that shares all value
addresses (a shallow copy, exactly what `self._state.copy()` does). -/

/-- A heap address. -/
abbrev Addr := Nat

/-- A heap node: a dict with addressed values, or an immutable
primitive. -/
inductive HNode where
  | hdict : List (String × Addr) → HNode
  | hprim : JVal → HNode

/-- The heap: an association of addresses to nodes. -/
abbrev Heap := List (Addr × HNode)

/-- Address lookup in the heap. -/
def lookupH : Heap → Addr → Option HNode
  | [], _ => none
  | p :: rest, a => if p.1 = a then some p.2 else lookupH rest a

/-- The value-address pairs of a node (empty for primitives). -/
def HNode.fields : HNode → List (String × Addr)
  | HNode.hdict fs => fs
  | HNode.hprim _ => []

/-- An address unused by the heap. -/
def freshH (h : Heap) : Addr :=
  (h.map Prod.fst).foldl Nat.max 0 + 1

/-- In-place mutation `d[k] = v` of the dict node at address `a`. -/
def setKeyH (h : Heap) (a : Addr) (k : String) (v : Addr) : Heap :=
  h.map (fun p =>
    if p.1 = a then
      (p.1, match p.2 with
            | HNode.hdict fs => HNode.hdict (aset fs k v)
            | n => n)
    else p)

/-- Reads the pure value rooted at an address, with a recursion-depth
fuel (dangling addresses and exhausted fuel read as null). -/
def readVal : Nat → Heap → Addr → JVal
  | 0, _, _ => JVal.null
  | fuel + 1, h, a =>
    match lookupH h a with
    | some (HNode.hprim v) => v
    | some (HNode.hdict fs) =>
      JVal.obj (fs.map (fun kv => (kv.1, readVal fuel h kv.2)))
    | none => JVal.null

/-- Every address stored inside a node of the heap is allocated. -/
def wfHeap (h : Heap) : Bool :=
  h.all (fun p => p.2.fields.all (fun kv => (lookupH h kv.2).isSome))

/-- Heap-level `get_latest`: `self._state.copy() if self._state else
None`.  When the state dict is non-empty the method returns a fresh
top-level dict node sharing every value address with the original
(`dict.copy()` is shallow); an empty state dict is falsy and yields
`None`.  A primitive state address cannot arise from `update`. -/
def getLatestH (h : Heap) (stateAddr : Option Addr) : Heap × Option Addr :=
  match stateAddr with
  | none => (h, none)
  | some a =>
    match lookupH h a with
    | some (HNode.hdict []) => (h, none)
    | some (HNode.hdict fs) => (h ++ [(freshH h, HNode.hdict fs)], some (freshH h))
    | _ => (h, none)

/-! Spec-side predicates for the snapshot field discipline (claim about
`to_dict` output shape), stated over the serializer output. -/

/-- True for every value other than JSON null. -/
def jNotNull : JVal → Bool
  | JVal.null => false
  | _ => true

/-- Field discipline of a serialized tile: the required `x`, `y`, `obj`
keys are present, and the optional `owner` key is always present —
rendered as null when the owner is unknown (this is what `asdict`
produces; the original claim instead demanded absence). -/
def tileDictOk (t : Tile) : Bool :=
  (pyGetRaw t.to_dict "x").isSome &&
  (pyGetRaw t.to_dict "y").isSome &&
  (pyGetRaw t.to_dict "obj").isSome &&
  (match pyGetRaw t.to_dict "owner", t.owner with
   | some (JVal.int p), some q => p == q
   | some JVal.null, none => true
   | _, _ => false)

/-- Field discipline of a serialized hero: the five required keys are
present (under the dataclass field names that the serializer uses), each
optional key is present exactly when its value is known, and no value is
null. -/
def heroDictOk (h : Hero) : Bool :=
  (pyGetRaw h.to_dict "name").isSome &&
  (pyGetRaw h.to_dict "location").isSome &&
  (pyGetRaw h.to_dict "army").isSome &&
  (pyGetRaw h.to_dict "movement_left").isSome &&
  (pyGetRaw h.to_dict "primary_stats").isSome &&
  ((pyGetRaw h.to_dict "mana").isSome == h.mana.isSome) &&
  ((pyGetRaw h.to_dict "experience").isSome == h.experience.isSome) &&
  ((pyGetRaw h.to_dict "level").isSome == h.level.isSome) &&
  ((pyGetRaw h.to_dict "skills").isSome == h.skills.isSome) &&
  ((pyGetRaw h.to_dict "spells").isSome == h.spells.isSome) &&
  ((pyGetRaw h.to_dict "artifacts").isSome == h.artifacts.isSome) &&
  h.to_dict.all (fun kv => jNotNull kv.2)

/-- Field discipline of a serialized town: the six required keys are
present, the optional `available_creatures` key is present exactly when
known, and no value is null. -/
def townDictOk (t : Town) : Bool :=
  (pyGetRaw t.to_dict "name").isSome &&
  (pyGetRaw t.to_dict "location").isSome &&
  (pyGetRaw t.to_dict "owner").isSome &&
  (pyGetRaw t.to_dict "type").isSome &&
  (pyGetRaw t.to_dict "buildings").isSome &&
  (pyGetRaw t.to_dict "garrison").isSome &&
  ((pyGetRaw t.to_dict "available_creatures").isSome == t.available_creatures.isSome) &&
  t.to_dict.all (fun kv => jNotNull kv.2)

/-- Field discipline of a serialized snapshot: the five required
top-level keys are present, `resources` is present exactly when the
resource pool is known and nonempty, and every tile, hero and town
record obeys its per-record discipline. -/
def snapshotFieldDiscipline (g : GameState) : Bool :=
  (pyGetRaw g.to_dict "turn").isSome &&
  (pyGetRaw g.to_dict "currentPlayer").isSome &&
  (pyGetRaw g.to_dict "visibleTiles").isSome &&
  (pyGetRaw g.to_dict "heroes").isSome &&
  (pyGetRaw g.to_dict "towns").isSome &&
  ((pyGetRaw g.to_dict "resources").isSome
    == (match g.resources with | some r => !r.isEmpty | none => false)) &&
  g.visible_tiles.all tileDictOk &&
  g.heroes.all heroDictOk &&
  g.towns.all townDictOk

/-! Theorems.  Each claim of the specification gets one theorem below;
helper lemmas are shared. -/

/-- The in-memory effect of `update` is the same whether or not a cache
file is configured and whether or not persisting succeeds: afterwards
`get_latest` reports the new snapshot, with the empty dict reported as
`None` because of the truthiness test in `get_latest`. -/
theorem get_latest_update (c : GameStateCache) (s : Dict) (now : Nat) (writeOk : Bool) :
    (c.update s now writeOk).get_latest = if s.isEmpty then none else some s := by
  unfold GameStateCache.update GameStateCache.save_to_file GameStateCache.get_latest
  cases c.cacheFileConfigured <;> cases writeOk <;> simp

/-- A cache whose `_state` field holds `some s` answers `get_latest`
with `s` unless `s` is the empty (falsy) dict. -/
theorem get_latest_of_state (c : GameStateCache) (s : Dict) (h : c.state = some s) :
    c.get_latest = if s.isEmpty then none else some s := by
  simp [GameStateCache.get_latest, h]

/-- C1, counterexample.  The claim quantifies over every choice of
snapshot dictionaries; taking `s1` nonempty and `s2` the empty dict, the
`get_latest` after the sequence is `None`, not a value equal to `s2`
(and `None == {}` is false in Python).  The cause is the truthiness test
`if self._state` in `get_latest` (`cache.py` line 58). -/
theorem C1_counterexample :
    (GameStateCache.update
        (GameStateCache.update (GameStateCache.init false none)
          [("turn", JVal.int 7)] 0 true)
        [] 1 true).get_latest = none ∧
      (none : Option Dict) ≠ some [] :=
  ⟨rfl, by simp⟩

/-- C1, amended.  For every sequence of `update` calls (each with its
own timestamp and persistence outcome) on any starting cache,
`get_latest` afterwards is determined by the last snapshot `sn` alone:
it equals `sn` whenever `sn` is nonempty, and is the empty result `None`
when `sn` is the empty dict.  In particular no earlier snapshot (as a
value different from `sn`) is ever returned after the sequence
completes: read-after-write consistency holds up to the empty-dict
exception. -/
theorem C1_read_after_write (l : List (Dict × Nat × Bool)) (c : GameStateCache)
    (x : Dict × Nat × Bool) (hlast : l.getLast? = some x) :
    (l.foldl (fun acc y => GameStateCache.update acc y.1 y.2.1 y.2.2) c).get_latest
      = if x.1.isEmpty then none else some x.1 := by
  induction l generalizing c with
  | nil => simp at hlast
  | cons a t ih =>
    cases t with
    | nil =>
      simp at hlast
      subst hlast
      simpa using get_latest_update c a.1 a.2.1 a.2.2
    | cons b t2 =>
      simp only [List.getLast?_cons_cons] at hlast
      simpa using ih (GameStateCache.update c a.1 a.2.1 a.2.2) hlast

/-- C1, witness: a concrete two-update sequence ending in a nonempty
snapshot, whose `get_latest` is that snapshot. -/
theorem C1_read_after_write_witness :
    ([([("turn", JVal.int 1)], 0, false), ([("turn", JVal.int 2)], 1, false)].foldl
        (fun acc y => GameStateCache.update acc y.1 y.2.1 y.2.2)
        (GameStateCache.init false none)).get_latest
      = some [("turn", JVal.int 2)] :=
  C1_read_after_write
    [([("turn", JVal.int 1)], 0, false), ([("turn", JVal.int 2)], 1, false)]
    (GameStateCache.init false none) ([("turn", JVal.int 2)], 1, false) rfl

/-- C5, counterexample.  The claim quantifies over every snapshot `s`;
for the empty dict, `update` with a failing persistence write leaves
`get_latest` returning `None`, which is not a value equal to `s`. -/
theorem C5_counterexample :
    (GameStateCache.update ⟨true, none, none, none⟩ [] 3 false).get_latest = none ∧
      (none : Option Dict) ≠ some [] :=
  ⟨rfl, by simp⟩

/-- C5, amended.  For every nonempty snapshot `s`, `update` on a cache
with a configured persistence path completes even when the file write
fails (the Python method catches every exception from the write and the
rename; the model is a total function), the persisted file is left as it
was, and a subsequent `get_latest` returns a value equal to `s`: the
in-memory cache is neither blocked nor corrupted by the persistence
failure.  For the empty dict, `get_latest` instead returns `None`. -/
theorem C5_persistence_failure (st : Option Dict) (lu : Option Nat)
    (f : Option FileContent) (s : Dict) (now : Nat) (hs : s ≠ []) :
    (GameStateCache.update ⟨true, st, lu, f⟩ s now false).get_latest = some s ∧
      (GameStateCache.update ⟨true, st, lu, f⟩ s now false).file = f := by
  cases s with
  | nil => exact absurd rfl hs
  | cons a t => exact ⟨rfl, rfl⟩

/-- C5, witness: a concrete one-key snapshot survives a failing write. -/
theorem C5_persistence_failure_witness :
    (GameStateCache.update ⟨true, none, none, none⟩ [("turn", JVal.int 1)] 3 false).get_latest
        = some [("turn", JVal.int 1)] ∧
      (GameStateCache.update ⟨true, none, none, none⟩ [("turn", JVal.int 1)] 3 false).file
        = none :=
  C5_persistence_failure none none none [("turn", JVal.int 1)] 3 (by simp)

/-- C6.  Constructing a `GameStateCache` over a persistence path whose
file exists but is corrupt or unreadable succeeds (the constructor and
`_load_from_file` are total here; the Python `except` clause catches the
load error), and the result behaves as if there were no prior state:
`get_latest` is the empty result and `last_update` is unset. -/
theorem C6_corrupt_file_construction :
    (GameStateCache.init true (some FileContent.corrupt)).get_latest = none ∧
      (GameStateCache.init true (some FileContent.corrupt)).last_update = none :=
  ⟨rfl, rfl⟩

/-- C7.  Updating a cache that has a configured persistence path (with
the write succeeding) and then constructing a fresh cache from the
resulting file yields a cache whose `get_latest` equals the first
cache's `get_latest` after the update: the snapshot round-trips through
the persisted `{state, last_update}` JSON document. -/
theorem C7_persistence_round_trip (st : Option Dict) (lu : Option Nat)
    (f : Option FileContent) (s : Dict) (now : Nat) :
    (GameStateCache.init true
        (GameStateCache.update ⟨true, st, lu, f⟩ s now true).file).get_latest
      = (GameStateCache.update ⟨true, st, lu, f⟩ s now true).get_latest := by
  have h1 : (GameStateCache.update ⟨true, st, lu, f⟩ s now true).file
      = some (FileContent.json (JVal.obj
          [("state", JVal.obj s), ("last_update", JVal.str (isoformat now))])) := rfl
  have h2 : (GameStateCache.init true (some (FileContent.json (JVal.obj
      [("state", JVal.obj s), ("last_update", JVal.str (isoformat now))])))).state
      = some s := by
    unfold GameStateCache.init GameStateCache.load_from_file
    simp [pyGet, alookup]
    split <;> rfl
  rw [h1, get_latest_of_state _ s h2, get_latest_update]

/-- C2.  For every cache and well-formed request body: with no snapshot
cached, the response is the explicit `{error, message}` payload with
error `"No game state available"` and no `data` field; with a cached
snapshot and a requested turn differing (under Python `==`) from the
snapshot's turn, the response is the `{error, message}` turn-mismatch
payload naming the mismatch, again without `data`; otherwise the
response is `{success: true, data: <snapshot>, metadata: {cached_at,
version}}`. -/
theorem C2_query_snapshot (cache : GameStateCache) (req : Dict) :
    (cache.get_latest = none →
      QueryHandler.handle_query cache req =
        [("error", JVal.str "No game state available"),
         ("message", JVal.str "Waiting for Heroes III save file to be detected")] ∧
      pyGetRaw (QueryHandler.handle_query cache req) "data" = none) ∧
    (∀ gs, cache.get_latest = some gs →
      (∀ t, pyGet req "turn" = some t → pyEqOpt t (pyGet gs "turn") = false →
        pyGetRaw (QueryHandler.handle_query cache req) "error"
            = some (JVal.str "Turn not available") ∧
        pyGetRaw (QueryHandler.handle_query cache req) "message"
            = some (JVal.str (mismatchMsg t (pyGet gs "turn"))) ∧
        pyGetRaw (QueryHandler.handle_query cache req) "data" = none) ∧
      ((pyGet req "turn" = none ∨
          ∃ t, pyGet req "turn" = some t ∧ pyEqOpt t (pyGet gs "turn") = true) →
        QueryHandler.handle_query cache req =
          [("success", JVal.bool true), ("data", JVal.obj gs),
           ("metadata", JVal.obj
             [("cached_at",
               match cache.last_update with
               | some u => JVal.str (isoformat u)
               | none => JVal.null),
              ("version", JVal.str "1.0.0")])])) := by
  refine ⟨fun hnone => ?_, fun gs hsome => ⟨fun t ht hne => ?_, fun hok => ?_⟩⟩
  · simp [QueryHandler.handle_query, hnone, pyGetRaw, alookup]
  · simp [QueryHandler.handle_query, hsome, ht, hne, pyGetRaw, alookup]
  · rcases hok with hnoturn | ⟨t, ht, heq⟩
    · simp [QueryHandler.handle_query, hsome, hnoturn]
    · simp [QueryHandler.handle_query, hsome, ht, heq]

/-- C2, witness: the three branches exercised on concrete caches — an
empty cache, and a turn-7 cache queried with turns 5 and 7. -/
theorem C2_query_snapshot_witness :
    pyGetRaw (QueryHandler.handle_query (GameStateCache.init false none) []) "data"
        = none ∧
      pyGetRaw (QueryHandler.handle_query ⟨false, some [("turn", JVal.int 7)], none, none⟩
          [("turn", JVal.int 5)]) "error" = some (JVal.str "Turn not available") ∧
      QueryHandler.handle_query ⟨false, some [("turn", JVal.int 7)], none, none⟩
          [("turn", JVal.int 7)] =
        [("success", JVal.bool true), ("data", JVal.obj [("turn", JVal.int 7)]),
         ("metadata", JVal.obj [("cached_at", JVal.null), ("version", JVal.str "1.0.0")])] := by
  refine ⟨((C2_query_snapshot (GameStateCache.init false none) []).1 rfl).2, ?_, ?_⟩
  · refine (((C2_query_snapshot ⟨false, some [("turn", JVal.int 7)], none, none⟩
      [("turn", JVal.int 5)]).2 [("turn", JVal.int 7)] rfl).1 (JVal.int 5) rfl ?_).1
    simp [pyEqOpt, pyGet, alookup, pyEq, pyNum]
  · exact ((C2_query_snapshot ⟨false, some [("turn", JVal.int 7)], none, none⟩
      [("turn", JVal.int 7)]).2 [("turn", JVal.int 7)] rfl).2
      (Or.inr ⟨JVal.int 7, rfl, by simp [pyEqOpt, pyGet, alookup, pyEq, pyNum]⟩)

/-- C10.  A `POST /query/snapshot` request with no body (absent
`Content-Length` header, or a header of 0) is handled exactly like the
empty query: the handler substitutes the literal `"\x7b\x7d"` body, the
request is not rejected with a 400, and the response equals the response
to an explicit empty-object body — the latest snapshot on success or the
no-data error payload when the cache is empty. -/
theorem C10_empty_body (loads : String → Option Dict) (cache : GameStateCache)
    (raw : String) (clh : Option Nat) (hlen : clh = none ∨ clh = some 0)
    (hloads : loads "\x7b\x7d" = some []) :
    MCPRequestHandler.handle_query loads cache ⟨clh, raw⟩
        = HttpResponse.ok (QueryHandler.handle_query cache []) ∧
      MCPRequestHandler.handle_query loads cache ⟨clh, raw⟩
        = MCPRequestHandler.handle_query loads cache ⟨some 2, "\x7b\x7d"⟩ := by
  rcases hlen with h | h <;> subst h <;>
    simp [MCPRequestHandler.handle_query, hloads,
      show "\x7b\x7d".take 2 = "\x7b\x7d" from rfl]

/-- C10, witness: a concrete JSON parser accepting the empty object and
an empty cache, with an absent `Content-Length` header. -/
theorem C10_empty_body_witness :
    MCPRequestHandler.handle_query
        (fun s => if s = "\x7b\x7d" then some [] else none)
        (GameStateCache.init false none) ⟨none, "ignored"⟩
      = HttpResponse.ok (QueryHandler.handle_query (GameStateCache.init false none) []) :=
  (C10_empty_body (fun s => if s = "\x7b\x7d" then some [] else none)
    (GameStateCache.init false none) "ignored" none (Or.inl rfl) (by simp)).1

/-- Looking up the key just written by `aset` yields the new value. -/
theorem alookup_aset_self {α : Type} (d : List (String × α)) (k : String) (v : α) :
    alookup (aset d k v) k = some v := by
  induction d with
  | nil => simp [aset, alookup]
  | cons kv rest ih =>
    by_cases h : kv.1 = k <;> simp [aset, alookup, h, ih]

/-- C3.  Debounce behaviour of `SaveFileHandler.on_modified` for two
modification events on the same save-file path (starting with no
recorded timestamp for that path): the first event is accepted and
invokes the parser, recording its timestamp; a second event within the
1.0-second window is discarded — no parser invocation and no timestamp
update — while a second event at distance at least 1.0 seconds (for
example 1.1) is accepted, invokes the parser again and records its
timestamp. -/
theorem C3_debounce (parse : String → Option GameState) (cb : Bool)
    (st0 : List (String × ℚ)) (p : String) (t1 t2 : ℚ)
    (hsave : SaveFileHandler.is_save_file p = true)
    (hfresh : alookup st0 p = none) :
    (SaveFileHandler.on_modified parse cb st0 ⟨p, false⟩ t1).parserCalled = true ∧
    (SaveFileHandler.on_modified parse cb st0 ⟨p, false⟩ t1).last_modified
      = aset st0 p t1 ∧
    (t2 - t1 < 1 →
      (SaveFileHandler.on_modified parse cb (aset st0 p t1) ⟨p, false⟩ t2).parserCalled
          = false ∧
        (SaveFileHandler.on_modified parse cb (aset st0 p t1) ⟨p, false⟩ t2).last_modified
          = aset st0 p t1) ∧
    (1 ≤ t2 - t1 →
      (SaveFileHandler.on_modified parse cb (aset st0 p t1) ⟨p, false⟩ t2).parserCalled
          = true ∧
        alookup (SaveFileHandler.on_modified parse cb (aset st0 p t1) ⟨p, false⟩
            t2).last_modified p
          = some t2) := by
  have hstep1 : (SaveFileHandler.on_modified parse cb st0 ⟨p, false⟩ t1).parserCalled = true ∧
      (SaveFileHandler.on_modified parse cb st0 ⟨p, false⟩ t1).last_modified
        = aset st0 p t1 := by
    cases hp : parse p <;> simp [SaveFileHandler.on_modified, hsave, hfresh, hp]
  refine ⟨hstep1.1, hstep1.2, fun hlt => ?_, fun hge => ?_⟩
  · simp [SaveFileHandler.on_modified, hsave, alookup_aset_self, hlt]
  · cases hp : parse p <;>
      simp [SaveFileHandler.on_modified, hsave, alookup_aset_self, not_lt.mpr hge, hp,
        alookup_aset_self]

/-- C3, witness: two events on `autosave_1.gm1` that are 1.1 seconds
apart, both accepted. -/
theorem C3_debounce_witness :
    (SaveFileHandler.on_modified (fun _ => some mockGameState) true []
        ⟨"autosave_1.gm1", false⟩ 0).parserCalled = true ∧
      (SaveFileHandler.on_modified (fun _ => some mockGameState) true
          (aset [] "autosave_1.gm1" 0) ⟨"autosave_1.gm1", false⟩ (11 / 10)).parserCalled
        = true ∧
      alookup (SaveFileHandler.on_modified (fun _ => some mockGameState) true
          (aset [] "autosave_1.gm1" 0) ⟨"autosave_1.gm1", false⟩
          (11 / 10)).last_modified "autosave_1.gm1"
        = some (11 / 10) := by
  have h := C3_debounce (fun _ => some mockGameState) true [] "autosave_1.gm1" 0 (11 / 10)
    (by decide) rfl
  exact ⟨h.1, (h.2.2.2 (by norm_num)).1, (h.2.2.2 (by norm_num)).2⟩

/-- `pickLatest best rest` is one of `best :: rest` and has the largest
modification time among them; it coincides with element 0 of the stable
descending sort by `st_mtime`. -/
theorem pickLatest_spec (rest : List FileEntry) (best : FileEntry) :
    (pickLatest best rest = best ∨ pickLatest best rest ∈ rest) ∧
      best.mtime ≤ (pickLatest best rest).mtime ∧
      ∀ g ∈ rest, g.mtime ≤ (pickLatest best rest).mtime := by
  induction rest generalizing best with
  | nil => simp [pickLatest]
  | cons f rest ih =>
    have hstep : pickLatest best (f :: rest)
        = pickLatest (if f.mtime > best.mtime then f else best) rest := rfl
    rcases ih (if f.mtime > best.mtime then f else best) with ⟨hmem, hle, hall⟩
    refine ⟨?_, ?_, ?_⟩
    · rw [hstep]
      rcases hmem with h | h
      · by_cases hc : f.mtime > best.mtime
        · right; rw [h]; simp [hc]
        · left; rw [h]; simp [hc]
      · right; exact List.mem_cons_of_mem f h
    · rw [hstep]
      refine le_trans ?_ hle
      by_cases hc : f.mtime > best.mtime <;> simp [hc] <;> omega
    · intro g hg
      rw [hstep]
      rcases List.mem_cons.mp hg with h | h
      · subst h
        refine le_trans ?_ hle
        by_cases hc : g.mtime > best.mtime <;> simp [hc] <;> omega
      · exact hall g h

/-- C4, counterexample.  With one matching save file and a parser that
succeeds, `process_existing_saves` writes the snapshot document to
stdout but does not invoke any callback — the method body
(`watcher.py` lines 121-142) contains no callback call — whereas a live
modification event on the same file (`on_modified`, lines 49-61) hands
the same snapshot to the configured callback.  The claim's "delivered
both to the configured callback and to standard output" is therefore
false at this input. -/
theorem C4_counterexample :
    (SaveWatcher.process_existing_saves [⟨"a.gm1", 5⟩]
        (fun _ => some mockGameState)).stdoutDoc = some mockGameState.to_dict ∧
      (SaveWatcher.process_existing_saves [⟨"a.gm1", 5⟩]
          (fun _ => some mockGameState)).callbackArg = none ∧
      (SaveFileHandler.on_modified (fun _ => some mockGameState) true []
          ⟨"a.gm1", false⟩ 0).callbackArg = some mockGameState := by
  refine ⟨?_, ?_, ?_⟩ <;>
    simp [SaveWatcher.process_existing_saves, SaveFileHandler.on_modified,
      globSaves, pickLatest, alookup,
      show SaveFileHandler.is_save_file "a.gm1" = true by decide,
      show strEndsWith "a.gm1" ".gm1" = true by decide,
      show strEndsWith "a.gm1" ".GM1" = false by decide,
      show strStartsWith "a.gm1" "autosave_" = false by decide]

/-- C4, amended.  Whenever the directory scan finds at least one file
matching the recognized save patterns (`*.gm1`, `*.GM1`,
`autosave_*.gm1`), `process_existing_saves` picks the single
most-recently-modified match, parses it, and on success writes the
resulting snapshot to standard output as a machine-readable document;
the configured callback is not invoked (unlike a live modification
event, which delivers the snapshot to both stdout and the callback). -/
theorem C4_process_existing_saves (dir : List FileEntry)
    (parse : String → Option GameState) (f : FileEntry) (rest : List FileEntry)
    (hglob : globSaves dir = f :: rest) :
    (pickLatest f rest = f ∨ pickLatest f rest ∈ rest) ∧
      (∀ g ∈ globSaves dir, g.mtime ≤ (pickLatest f rest).mtime) ∧
      (SaveWatcher.process_existing_saves dir parse).stdoutDoc
        = (parse (pickLatest f rest).name).map GameState.to_dict ∧
      (SaveWatcher.process_existing_saves dir parse).callbackArg = none := by
  rcases pickLatest_spec rest f with ⟨hmem, hbest, hall⟩
  refine ⟨hmem, ?_, ?_, ?_⟩
  · intro g hg
    rw [hglob] at hg
    rcases List.mem_cons.mp hg with h | h
    · subst h; exact hbest
    · exact hall g h
  · cases hp : parse (pickLatest f rest).name <;>
      simp [SaveWatcher.process_existing_saves, hglob, hp]
  · cases hp : parse (pickLatest f rest).name <;>
      simp [SaveWatcher.process_existing_saves, hglob, hp]

/-- C4, witness: a directory holding an older `*.gm1` and a newer
`*.GM1`; the newer one is chosen, parsed and written to stdout, and no
callback is invoked. -/
theorem C4_process_existing_saves_witness :
    (SaveWatcher.process_existing_saves [⟨"old.gm1", 5⟩, ⟨"AUTOSAVE.GM1", 9⟩]
          (fun _ => some mockGameState)).stdoutDoc
        = some mockGameState.to_dict ∧
      (SaveWatcher.process_existing_saves [⟨"old.gm1", 5⟩, ⟨"AUTOSAVE.GM1", 9⟩]
          (fun _ => some mockGameState)).callbackArg = none := by
  have h := C4_process_existing_saves [⟨"old.gm1", 5⟩, ⟨"AUTOSAVE.GM1", 9⟩]
    (fun _ => some mockGameState) ⟨"old.gm1", 5⟩ [⟨"AUTOSAVE.GM1", 9⟩] (by decide)
  exact ⟨h.2.2.1.trans rfl, h.2.2.2⟩

/-- Every serialized hero obeys the hero field discipline. -/
theorem heroDictOk_true (h : Hero) : heroDictOk h = true := by
  obtain ⟨nm, loc, army, mv, ps, mana, exp, lvl, sk, sp, ar⟩ := h
  cases mana <;> cases exp <;> cases lvl <;> cases sk <;> cases sp <;> cases ar <;>
    simp [heroDictOk, Hero.to_dict, Hero.fieldPairs, pyGetRaw, alookup, jNotNull, jobjInt]

/-- Every serialized town obeys the town field discipline. -/
theorem townDictOk_true (t : Town) : townDictOk t = true := by
  obtain ⟨nm, loc, ow, ty, bld, gar, av⟩ := t
  cases av <;>
    simp [townDictOk, Town.to_dict, Town.fieldPairs, pyGetRaw, alookup, jNotNull, jobjInt]

/-- Every serialized tile obeys the tile field discipline (in
particular `owner` is always emitted, as null when unknown). -/
theorem tileDictOk_true (t : Tile) : tileDictOk t = true := by
  obtain ⟨x, y, ob, ow⟩ := t
  cases ow <;> simp [tileDictOk, Tile.to_dict, pyGetRaw, alookup]

/-- C9, counterexample.  `Tile.to_dict` is a bare `asdict`: a tile with
unknown owner serializes with an `owner` key holding null, so the
claim's "every optional field whose value is unknown is absent from the
output rather than present as null" is false for tile records; the
second conjunct exhibits the same null inside a full snapshot
serialization (the mock game state of `parser.py`). -/
theorem C9_counterexample :
    pyGetRaw (Tile.to_dict ⟨34, 17, "GoldMine", none⟩) "owner" = some JVal.null ∧
      pyGetRaw (GameState.to_dict mockGameState) "visibleTiles"
        = some (JVal.arr
            [JVal.obj (Tile.to_dict ⟨34, 17, "GoldMine", none⟩),
             JVal.obj (Tile.to_dict ⟨35, 17, "CrystalCavern", some 0⟩)]) := by
  constructor <;> rfl

/-- C9, amended.  For every `GameState`, the serialized snapshot
contains the required fields `turn`, `currentPlayer`, `visibleTiles`,
`heroes`, `towns`; the `resources` mapping appears exactly when it is
known and nonempty; hero and town records carry their required fields
(under the serializer's dataclass key names) and omit unknown optional
fields rather than emitting null or empty values; tile records carry
`x`, `y`, `obj` and always an `owner` key, which is null exactly when
the owner is unknown. -/
theorem C9_snapshot_fields (g : GameState) : snapshotFieldDiscipline g = true := by
  obtain ⟨turn, cp, tiles, heroes, towns, resources⟩ := g
  have htiles : tiles.all tileDictOk = true :=
    List.all_eq_true.mpr (fun t _ => tileDictOk_true t)
  have hheroes : heroes.all heroDictOk = true :=
    List.all_eq_true.mpr (fun h _ => heroDictOk_true h)
  have htowns : towns.all townDictOk = true :=
    List.all_eq_true.mpr (fun t _ => townDictOk_true t)
  rcases resources with _ | (_ | ⟨kv, rest⟩) <;>
    simp [snapshotFieldDiscipline, GameState.to_dict, pyGetRaw, alookup,
      htiles, hheroes, htowns]

/-- Appending fresh entries does not change lookups that already
succeed. -/
theorem lookupH_append_of_isSome (h t : Heap) (a : Addr)
    (hs : (lookupH h a).isSome = true) : lookupH (h ++ t) a = lookupH h a := by
  induction h with
  | nil => simp [lookupH] at hs
  | cons p rest ih =>
    by_cases hp : p.1 = a <;> simp [lookupH, hp] at hs ⊢
    exact ih hs

/-- Mutating the node at one address leaves every other address
unchanged. -/
theorem lookupH_setKeyH_ne (h : Heap) (a b : Addr) (k : String) (v : Addr)
    (hne : b ≠ a) : lookupH (setKeyH h a k v) b = lookupH h b := by
  induction h with
  | nil => rfl
  | cons p rest ih =>
    have hab : ¬ (a = b) := fun hEq => hne hEq.symm
    by_cases hp : p.1 = a
    · simp [setKeyH, lookupH, hp, hab] at ih ⊢
      exact ih
    · by_cases hpb : p.1 = b
      · simp [setKeyH, lookupH, hp, hpb, hne]
      · simp [setKeyH, lookupH, hp, hpb, hne] at ih ⊢
        exact ih

/-- An address with a successful lookup is among the heap's keys. -/
theorem lookupH_isSome_mem_keys (h : Heap) (a : Addr)
    (hs : (lookupH h a).isSome = true) : a ∈ h.map Prod.fst := by
  induction h with
  | nil => simp [lookupH] at hs
  | cons p rest ih =>
    by_cases hp : p.1 = a
    · simp [hp.symm]
    · simp [lookupH, hp] at hs
      simp [ih hs]

/-- The left fold of `Nat.max` bounds its start value and every list
element. -/
theorem le_foldl_max (l : List Nat) (b : Nat) :
    b ≤ l.foldl Nat.max b ∧ ∀ x ∈ l, x ≤ l.foldl Nat.max b := by
  induction l generalizing b with
  | nil => simp
  | cons c t ih =>
    have h1 := ih (Nat.max b c)
    refine ⟨le_trans (Nat.le_max_left b c) h1.1, fun x hx => ?_⟩
    rcases List.mem_cons.mp hx with h | h
    · subst h; exact le_trans (Nat.le_max_right b x) h1.1
    · exact h1.2 x h

/-- Allocated addresses are strictly below the fresh address. -/
theorem mem_dom_lt_freshH (h : Heap) (a : Addr)
    (hs : (lookupH h a).isSome = true) : a < freshH h := by
  have hmem := lookupH_isSome_mem_keys h a hs
  have hle := (le_foldl_max (h.map Prod.fst) 0).2 a hmem
  exact Nat.lt_succ_of_le hle

/-- A successful lookup comes from a heap entry. -/
theorem lookupH_mem (h : Heap) (a : Addr) (n : HNode)
    (hl : lookupH h a = some n) : (a, n) ∈ h := by
  induction h with
  | nil => simp [lookupH] at hl
  | cons p rest ih =>
    by_cases hp : p.1 = a
    · simp [lookupH, hp] at hl
      have hpn : (a, n) = p := by cases p; simp_all
      rw [hpn]
      exact List.mem_cons_self p rest
    · simp [lookupH, hp] at hl
      exact List.mem_cons_of_mem p (ih hl)

/-- Frame property of the shallow copy: in a well-formed heap, after
`get_latest` copies the state dict to a fresh address, mutating the
fresh copy (assigning any key of it) does not change the value read
from any already-allocated address — in particular not the value of the
internal state dict. -/
theorem readVal_stable (fuel : Nat) (h : Heap) (node : HNode) (k : String) (v : Addr)
    (hwf : wfHeap h = true) (b : Addr) (hb : (lookupH h b).isSome = true) :
    readVal fuel (setKeyH (h ++ [(freshH h, node)]) (freshH h) k v) b
      = readVal fuel h b := by
  induction fuel generalizing b with
  | zero => rfl
  | succ fuel ih =>
    have hbne : b ≠ freshH h := Nat.ne_of_lt (mem_dom_lt_freshH h b hb)
    have h1 : lookupH (setKeyH (h ++ [(freshH h, node)]) (freshH h) k v) b
        = lookupH h b := by
      rw [lookupH_setKeyH_ne _ _ _ _ _ hbne, lookupH_append_of_isSome h _ b hb]
    cases hn : lookupH h b with
    | none => rw [hn] at hb; simp at hb
    | some n =>
      cases n with
      | hprim w => simp [readVal, h1, hn]
      | hdict fs =>
        simp only [readVal, h1, hn]
        congr 1
        apply List.map_congr_left
        intro kv hkv
        have hmem : (b, HNode.hdict fs) ∈ h := lookupH_mem h b _ hn
        have hflds := List.all_eq_true.mp (List.all_eq_true.mp hwf _ hmem) kv hkv
        simp only [HNode.fields] at hflds
        rw [ih kv.2 hflds]

/-- C8, counterexample.  `get_latest` returns `self._state.copy()`, a
shallow copy: the returned top-level dict is a fresh object, but every
nested object is shared with the cache's internal state.  Concretely:
the internal state dict at address 0 holds `heroes ↦ address 1`; the
copy handed out by `get_latest` is the fresh address 4 and still maps
`heroes ↦ address 1`; mutating the nested dict at address 1 through the
returned structure (`returned["heroes"]["name"] = "X"`) changes the
value a later `get_latest` reads from the internal state, refuting
"no mutation of the returned structure, at any nesting depth, changes
the value a later get_latest() returns". -/
theorem C8_counterexample :
    getLatestH
        [(0, HNode.hdict [("heroes", 1)]), (1, HNode.hdict [("name", 2)]),
         (2, HNode.hprim (JVal.str "Ivor")), (3, HNode.hprim (JVal.str "X"))] (some 0)
      = ([(0, HNode.hdict [("heroes", 1)]), (1, HNode.hdict [("name", 2)]),
          (2, HNode.hprim (JVal.str "Ivor")), (3, HNode.hprim (JVal.str "X")),
          (4, HNode.hdict [("heroes", 1)])], some 4) ∧
    lookupH
        [(0, HNode.hdict [("heroes", 1)]), (1, HNode.hdict [("name", 2)]),
         (2, HNode.hprim (JVal.str "Ivor")), (3, HNode.hprim (JVal.str "X")),
         (4, HNode.hdict [("heroes", 1)])] 4
      = some (HNode.hdict [("heroes", 1)]) ∧
    readVal 3
        [(0, HNode.hdict [("heroes", 1)]), (1, HNode.hdict [("name", 2)]),
         (2, HNode.hprim (JVal.str "Ivor")), (3, HNode.hprim (JVal.str "X")),
         (4, HNode.hdict [("heroes", 1)])] 0
      = JVal.obj [("heroes", JVal.obj [("name", JVal.str "Ivor")])] ∧
    readVal 3
        (setKeyH
          [(0, HNode.hdict [("heroes", 1)]), (1, HNode.hdict [("name", 2)]),
           (2, HNode.hprim (JVal.str "Ivor")), (3, HNode.hprim (JVal.str "X")),
           (4, HNode.hdict [("heroes", 1)])] 1 "name" 3) 0
      = JVal.obj [("heroes", JVal.obj [("name", JVal.str "X")])] ∧
    JVal.obj [("heroes", JVal.obj [("name", JVal.str "X")])]
      ≠ JVal.obj [("heroes", JVal.obj [("name", JVal.str "Ivor")])] := by
  refine ⟨rfl, rfl, rfl, rfl, ?_⟩
  simp

/-- C8, amended.  `get_latest` does return a fresh top-level dict (the
explicit empty result `None` when no state exists or the state dict is
empty): in a well-formed heap, the returned address is freshly
allocated, and mutating the returned dict itself — assigning any of its
keys — does not change the value a later read of the internal state
yields.  Nested values, however, are shared between the copy and the
internal state (shallow copy), as the counterexample shows. -/
theorem C8_defensive_top_level (h : Heap) (a : Addr) (fs : List (String × Addr))
    (k : String) (v : Addr) (fuel : Nat)
    (hwf : wfHeap h = true) (ha : lookupH h a = some (HNode.hdict fs))
    (hfs : fs ≠ []) :
    getLatestH h (some a) = (h ++ [(freshH h, HNode.hdict fs)], some (freshH h)) ∧
      freshH h ≠ a ∧
      readVal fuel (setKeyH (h ++ [(freshH h, HNode.hdict fs)]) (freshH h) k v) a
        = readVal fuel h a := by
  have hsome : (lookupH h a).isSome = true := by simp [ha]
  refine ⟨?_, ?_, ?_⟩
  · cases fs with
    | nil => exact absurd rfl hfs
    | cons kv rest => simp [getLatestH, ha]
  · exact fun hEq => absurd (hEq ▸ mem_dom_lt_freshH h a hsome) (lt_irrefl _)
  · exact readVal_stable fuel h (HNode.hdict fs) k v hwf a hsome

/-- C8, witness: a two-node heap whose state dict holds one key; the
copy goes to fresh address 2, and overwriting a key of the copy leaves
the internal value unchanged. -/
theorem C8_defensive_top_level_witness :
    getLatestH [(0, HNode.hdict [("turn", 1)]), (1, HNode.hprim (JVal.int 7))] (some 0)
        = ([(0, HNode.hdict [("turn", 1)]), (1, HNode.hprim (JVal.int 7))] ++
            [(freshH [(0, HNode.hdict [("turn", 1)]), (1, HNode.hprim (JVal.int 7))],
              HNode.hdict [("turn", 1)])],
           some (freshH [(0, HNode.hdict [("turn", 1)]), (1, HNode.hprim (JVal.int 7))])) ∧
      freshH [(0, HNode.hdict [("turn", 1)]), (1, HNode.hprim (JVal.int 7))] ≠ 0 ∧
      readVal 3
          (setKeyH
            ([(0, HNode.hdict [("turn", 1)]), (1, HNode.hprim (JVal.int 7))] ++
              [(freshH [(0, HNode.hdict [("turn", 1)]), (1, HNode.hprim (JVal.int 7))],
                HNode.hdict [("turn", 1)])])
            (freshH [(0, HNode.hdict [("turn", 1)]), (1, HNode.hprim (JVal.int 7))])
            "turn" 1) 0
        = readVal 3 [(0, HNode.hdict [("turn", 1)]), (1, HNode.hprim (JVal.int 7))] 0 :=
  C8_defensive_top_level
    [(0, HNode.hdict [("turn", 1)]), (1, HNode.hprim (JVal.int 7))] 0 [("turn", 1)]
    "turn" 1 3 (by decide) rfl (by simp)
